import Mathlib

/-!
Verification development for the PDF generation service
(`backend/services/pdf_service.py`): a shallow embedding of the
template-to-PDF rendering engine (field renderer, table renderer, page
compositor) and of the strategy/merge layer (native form fill, pikepdf
merge, PyPDF2 merge, standalone fallback), together with theorems about
the embedded definitions.

Conventions of the embedding:
* Python scalars reaching the renderer are modelled by `PyVal`
  (strings, lists, dicts — the only shapes the service distinguishes
  via `isinstance`).
* Geometry is modelled over `ℚ`; the float literal `0.6` is the exact
  rational `3/5` and all colour constants are exact rationals.
* ReportLab canvas calls are modelled as an explicit list of `DrawOp`
  drawing operations; canvas calls that only set document metadata
  (`setTitle`, `setPageCompression`, producer metadata) emit no op.
* PyPDF2/pikepdf documents are modelled by `PdfDoc`: a list of pages,
  each carrying its content streams and its annotations (form-field
  widgets), plus a flag for the document-level `/AcroForm` entry.
* Fallible library operations return `Option`; `none` models a raised
  (and caught) exception or an explicit `return None`.  Exogenous
  library failures that the code catches are modelled by boolean knobs
  in `Env`.
-/

namespace PdfService

/-- Model of a Python value as the service distinguishes values:
a string (any scalar after `str()`), a list, or a dict. -/
inductive PyVal where
  | pstr : String → PyVal
  | plist : List PyVal → PyVal
  | pdict : List (String × PyVal) → PyVal

/-- Python truthiness (`if value:`) for the modelled shapes: empty
string / list / dict are falsy. -/
def pyTruthy : PyVal → Bool
  | .pstr s => !s.isEmpty
  | .plist xs => !xs.isEmpty
  | .pdict kvs => !kvs.isEmpty

mutual

/-- Python `repr` of a value (used by `str()` on lists and dicts). -/
def pyRepr : PyVal → String
  | .pstr s => "\x27" ++ s ++ "\x27"
  | .plist xs => "[" ++ String.intercalate ", " (pyReprList xs) ++ "]"
  | .pdict kvs => "\x7b" ++ String.intercalate ", " (pyReprPairs kvs) ++ "\x7d"

/-- `repr` of each element of a list. -/
def pyReprList : List PyVal → List String
  | [] => []
  | x :: xs => pyRepr x :: pyReprList xs

/-- `repr` of each key/value pair of a dict. -/
def pyReprPairs : List (String × PyVal) → List String
  | [] => []
  | (k, v) :: xs => ("\x27" ++ k ++ "\x27: " ++ pyRepr v) :: pyReprPairs xs

end

/-- Python `str()` of a value: a string is returned as is, lists and
dicts render via `repr` of their elements. -/
def pyStr : PyVal → String
  | .pstr s => s
  | v => pyRepr v

/-- `data.get(key, default)` on the data map (Python dict keys are
unique, so first match is the match). -/
def dataGet (data : List (String × PyVal)) (key : String) (deflt : PyVal) : PyVal :=
  (data.lookup key).getD deflt

/-- Python `str.strip()`: remove leading and trailing whitespace
(modelled over the character list so that it evaluates by kernel
reduction). -/
def pyStrip (s : String) : String :=
  ⟨((s.data.dropWhile Char.isWhitespace).reverse.dropWhile Char.isWhitespace).reverse⟩

/-- Python `str.lower()` (the tokens compared by the service are
ASCII). -/
def pyLower (s : String) : String :=
  ⟨s.data.map Char.toLower⟩

/-- Python `int()` applied to a rational: truncation toward zero. -/
def pyInt (q : ℚ) : ℤ :=
  if 0 ≤ q then ⌊q⌋ else -⌊-q⌋

/-- Python slice `s[:k]` for a possibly negative stop index `k`:
a negative stop counts from the end (`max 0 (len + k)` characters). -/
def pySliceTo (s : String) (k : ℤ) : String :=
  if 0 ≤ k then ⟨s.data.take k.toNat⟩
  else ⟨s.data.take (s.data.length - (-k).toNat)⟩

/-- The truncation idiom used for field values and table cells:
`if len(text) > max_chars: text = text[:max_chars - 3] + ...`. -/
def pyTruncate (s : String) (maxChars : ℤ) : String :=
  if (s.length : ℤ) > maxChars then pySliceTo s (maxChars - 3) ++ "..." else s

/-- The explicit "checked" tokens tested by the field renderer
(`pdf_service.py` line 563). -/
def positiveTokens : List String := ["true", "yes", "1", "checked", "on", "x"]

/-- The "falsey" tokens tested by the field renderer
(`pdf_service.py` line 565). -/
def falseyTokens : List String := ["false", "no", "0", "unchecked", "off", ""]

/-- The tokens the native form filler maps to `/Yes`
(`pdf_service.py` line 168). -/
def fillerTokens : List String := ["yes", "true", "1", "checked", "on", "x"]

/-- The field renderer's checkbox decision (`pdf_service.py`
lines 557-565): falsy values are unchecked; otherwise the stripped,
lower-cased string is checked when it is a positive token or is not a
falsey token. -/
def isCheckedValue (v : PyVal) : Bool :=
  if pyTruthy v then
    let s := pyLower (pyStrip (pyStr v))
    positiveTokens.contains s || !(falseyTokens.contains s)
  else false

/-- The native form filler's checkbox state (`pdf_service.py`
lines 164-171): `/Yes` exactly when the value is truthy and its
stripped, lower-cased string is one of the filler tokens. -/
def fillerCheckboxState (v : PyVal) : String :=
  if pyTruthy v && fillerTokens.contains (pyLower (pyStrip (pyStr v))) then "/Yes"
  else "/Off"

/-- Gregorian leap year (as validated by `datetime`). -/
def isLeapYear (y : Nat) : Bool :=
  (y % 4 = 0 && y % 100 ≠ 0) || y % 400 = 0

/-- Days in a month (as validated by `datetime`). -/
def daysInMonth (y m : Nat) : Nat :=
  if m = 2 then (if isLeapYear y then 29 else 28)
  else if m = 4 || m = 6 || m = 9 || m = 11 then 30 else 31

/-- Numeric value of a decimal digit character. -/
def digitVal (c : Char) : Nat := c.toNat - 48

/-- Whether a string is a date accepted by
`datetime.fromisoformat`: exactly `YYYY-MM-DD` with a valid year,
month and day. -/
def isValidIsoDate (s : String) : Bool :=
  match s.data with
  | [y1, y2, y3, y4, h1, m1, m2, h2, d1, d2] =>
    h1 = '-' && h2 = '-' &&
    (y1.isDigit && y2.isDigit && y3.isDigit && y4.isDigit &&
     m1.isDigit && m2.isDigit && d1.isDigit && d2.isDigit) &&
    (let y := ((digitVal y1 * 10 + digitVal y2) * 10 + digitVal y3) * 10 + digitVal y4
     let m := digitVal m1 * 10 + digitVal m2
     let d := digitVal d1 * 10 + digitVal d2
     1 ≤ y && 1 ≤ m && m ≤ 12 && 1 ≤ d && d ≤ daysInMonth y m)
  | _ => false

/-- The date reformatting step of the field renderer
(`pdf_service.py` lines 631-641): when the value contains `T` or has
length 10, the part before `T` is parsed with
`datetime.fromisoformat` and re-emitted as `YYYY-MM-DD` (which equals
the parsed part verbatim, it being already in that exact shape); on a
parse failure the value passes through unchanged. -/
def pyFormatDate (s : String) : String :=
  if s.data.contains 'T' || s.length = 10 then
    let datePart : String := ⟨s.data.takeWhile (fun c => !(c == 'T'))⟩
    if isValidIsoDate datePart then datePart else s
  else s

/-- The single coordinate conversion of the renderer
(`pdf_service.py` lines 519-520 and 667-668): editor top-left-origin
`y` to content-space bottom-left-origin `y`. -/
def toContentY (editorY fieldHeight pageHeight : ℚ) : ℚ :=
  pageHeight - editorY - fieldHeight

/-- A ReportLab canvas drawing operation, as emitted by the service. -/
inductive DrawOp where
  | setFont (fontName : String) (size : ℚ)
  | setStrokeColorRGB (r g b : ℚ)
  | setFillColorRGB (r g b : ℚ)
  | setLineWidth (w : ℚ)
  | rect (x y w h : ℚ) (fill : Bool)
  | line (x1 y1 x2 y2 : ℚ)
  | drawString (x y : ℚ) (text : String)
  | saveState
  | restoreState
  deriving DecidableEq

/-- The string drawn by an operation, when it draws one. -/
def stringOf : DrawOp → Option String
  | .drawString _ _ s => some s
  | _ => none

/-- Whether an operation is a `line` stroke. -/
def isLineOp : DrawOp → Bool
  | .line _ _ _ _ => true
  | _ => false

/-- Whether an operation is a `rect`. -/
def isRectOp : DrawOp → Bool
  | .rect _ _ _ _ _ => true
  | _ => false

/-- A template field (`Field`): Python attribute defaults
(`getattr(field, attr, default)`) are modelled as default field
values; `label` is `none` when the attribute is absent, in which case
the field name is used. -/
structure Field where
  name : String
  type : String
  label : Option String := none
  x : ℚ
  y : ℚ
  width : ℚ
  height : ℚ
  fontSize : ℚ := 12
  fontWeight : String := "normal"
  tableRows : Nat := 3
  tableColumns : Nat := 3
  tableHeaders : List String := []
  cellWidth : ℚ := 100
  cellHeight : ℚ := 25

/-- `getattr(field, 'label', field_name)`. -/
def fieldLabel (f : Field) : String := f.label.getD f.name

/-- A template: page size defaults model
`template.pageWidth if hasattr(...) else 612` (and 792). -/
structure Template where
  name : String
  fields : List Field
  pageWidth : ℚ := 612
  pageHeight : ℚ := 792

/-- The color/width reset emitted at the end of `_draw_field`
(`pdf_service.py` lines 654-655) and `_draw_table` (lines 750-751). -/
def resetOps : List DrawOp :=
  [.setStrokeColorRGB 0 0 0, .setFillColorRGB 0 0 0]

/-- Border, horizontal rules and vertical rules of a table
(`pdf_service.py` lines 684-701). -/
def tableGridOps (x y tableWidth tableHeight cellWidth cellHeight : ℚ)
    (totalRows columns : Nat) (hasHeaders : Bool) : List DrawOp :=
  [.setStrokeColorRGB 0 0 0, .setLineWidth 2, .rect x y tableWidth tableHeight false,
   .setLineWidth 1] ++
  ((List.range (totalRows - 1)).map (· + 1)).flatMap (fun i =>
    [.setLineWidth (if hasHeaders && i = 1 then 2 else 1),
     .line x (y + i * cellHeight) (x + tableWidth) (y + i * cellHeight)]) ++
  [.setLineWidth 1] ++
  ((List.range (columns - 1)).map (· + 1)).map (fun i =>
    .line (x + i * cellWidth) y (x + i * cellWidth) (y + tableHeight))

/-- Tinted header row and header captions (`pdf_service.py`
lines 704-713); the loop over `range(min(columns, len(headers)))` is
modelled index-first. -/
def tableHeaderOps (x y tableWidth tableHeight cellWidth cellHeight : ℚ)
    (columns : Nat) (headers : List String) : List DrawOp :=
  [.setFont "Helvetica-Bold" 10, .setFillColorRGB (9/10) (19/20) 1,
   .rect x (y + tableHeight - cellHeight) tableWidth cellHeight true,
   .setFillColorRGB 0 0 0] ++
  (List.range (min columns headers.length)).map (fun col =>
    .drawString (x + col * cellWidth + 5) (y + tableHeight - cellHeight + cellHeight / 2 - 3)
      (headers.getD col ""))

/-- The cells contributed by one supplied table row (`pdf_service.py`
lines 724-747): a list row yields its first `columns` cells (falsy
cells render empty), a dict row yields one cell per header among the
first `columns` headers (`enumerate(headers[:columns])`, modelled
index-first), and any other row shape is skipped. -/
def tableRowCells (columns : Nat) (headers : List String) (rowData : PyVal) :
    List (Nat × String) :=
  match rowData with
  | .plist cells =>
    (List.range (min columns cells.length)).map (fun colIdx =>
      let cv := cells.getD colIdx (.pstr "")
      (colIdx, if pyTruthy cv then pyStr cv else ""))
  | .pdict kvs =>
    (List.range (min columns headers.length)).map (fun colIdx =>
      (colIdx, pyStr ((kvs.lookup (headers.getD colIdx "")).getD (.pstr ""))))
  | .pstr _ => []

/-- All data cells of a table (`pdf_service.py` lines 719-747): only
list-shaped table values contribute cells, and only their first
`min(rows, len(table_data))` rows are consulted.  Each element is
`(rowIdx, colIdx, cellText)` before truncation. -/
def tableDataCells (rows columns : Nat) (headers : List String) (tableData : PyVal) :
    List (Nat × Nat × String) :=
  match tableData with
  | .plist rowsData =>
    (List.range (min rows rowsData.length)).flatMap (fun rowIdx =>
      (tableRowCells columns headers (rowsData.getD rowIdx (.pstr ""))).map
        (fun c => (rowIdx, c.1, c.2)))
  | _ => []

/-- The drawing operation for one data cell (`pdf_service.py`
lines 727-735 / 739-747): position from the visual row
(`rowIdx + startRow`), text truncated to `int((cellWidth - 10) / 5)`
characters. -/
def tableCellOp (x y tableHeight cellWidth cellHeight : ℚ) (startRow : Nat)
    (cell : Nat × Nat × String) : DrawOp :=
  let visualRow := cell.1 + startRow
  let text := pyTruncate cell.2.2 (pyInt ((cellWidth - 10) / 5))
  .drawString (x + cell.2.1 * cellWidth + 5)
    (y + tableHeight - (visualRow + 1 : ℚ) * cellHeight + cellHeight / 2 - 3) text

/-- The data-cell section of a rendered table. -/
def tableDataSection (f : Field) (pageHeight : ℚ) (tableData : PyVal) : List DrawOp :=
  let x := f.x
  let y := toContentY f.y f.height pageHeight
  let hasHeaders := !f.tableHeaders.isEmpty
  let totalRows := f.tableRows + (if hasHeaders then 1 else 0)
  let tableHeight := f.cellHeight * totalRows
  let startRow := if hasHeaders then 1 else 0
  (tableDataCells f.tableRows f.tableColumns f.tableHeaders tableData).map
    (tableCellOp x y tableHeight f.cellWidth f.cellHeight startRow)

/-- `_draw_table` (`pdf_service.py` lines 659-751).  The
`overlay_mode` parameter is accepted but never consulted by the
source, which this embedding mirrors. -/
def drawTable (f : Field) (data : List (String × PyVal)) (pageHeight : ℚ)
    (overlayMode : Bool) : List DrawOp :=
  let x := f.x
  let y := toContentY f.y f.height pageHeight
  let hasHeaders := !f.tableHeaders.isEmpty
  let totalRows := f.tableRows + (if hasHeaders then 1 else 0)
  let tableWidth := f.cellWidth * f.tableColumns
  let tableHeight := f.cellHeight * totalRows
  let tableData := dataGet data f.name (.plist [])
  tableGridOps x y tableWidth tableHeight f.cellWidth f.cellHeight totalRows
      f.tableColumns hasHeaders ++
  (if hasHeaders then
      tableHeaderOps x y tableWidth tableHeight f.cellWidth f.cellHeight
        f.tableColumns f.tableHeaders
    else []) ++
  [.setFont "Helvetica" 9] ++
  tableDataSection f pageHeight tableData ++
  resetOps

/-- `_draw_field` (`pdf_service.py` lines 507-657), returning the
emitted drawing operations and the Python return value
(`'checkbox_drawn'`, `'checkbox_empty'` or `None`).  The checkbox
branch returns before the label-drawing statements at lines 604-608,
so no checkbox label is ever emitted (those lines are unreachable in
the source). -/
def drawField (f : Field) (data : List (String × PyVal)) (pageHeight : ℚ)
    (overlayMode : Bool) : List DrawOp × Option String :=
  let x := f.x
  let y := toContentY f.y f.height pageHeight
  let fontName := if f.fontWeight = "bold" then "Helvetica-Bold" else "Helvetica"
  if f.type = "table" then
    (drawTable f data pageHeight overlayMode, none)
  else if f.type = "label" then
    if overlayMode then ([], none)
    else
      ([.setFont fontName f.fontSize,
        .drawString x (y + f.height / 2 - f.fontSize / 3) (fieldLabel f)] ++ resetOps, none)
  else if f.type = "checkbox" then
    let boxOps : List DrawOp :=
      if overlayMode then []
      else [.setStrokeColorRGB (1/5) (2/5) (4/5), .setLineWidth (3/2),
            .rect x y f.width f.height false]
    let value := dataGet data f.name (.pstr "")
    if isCheckedValue value then
      (boxOps ++
       [.saveState, .setStrokeColorRGB 0 0 0, .setLineWidth 2,
        .line (x + f.width * (1/5)) (y + f.height * (2/5))
          (x + f.width * (2/5)) (y + f.height * (1/5)),
        .line (x + f.width * (2/5)) (y + f.height * (1/5))
          (x + f.width * (4/5)) (y + f.height * (4/5)),
        .restoreState], some "checkbox_drawn")
    else
      (boxOps, some "checkbox_empty")
  else
    let boxOps : List DrawOp :=
      if overlayMode then []
      else [.setStrokeColorRGB (1/5) (2/5) (4/5), .setLineWidth 1,
            .setFillColorRGB (9/10) (19/20) 1, .rect x y f.width f.height true,
            .setFont "Helvetica" 8, .setFillColorRGB (2/5) (2/5) (2/5),
            .drawString x (y + f.height + 3) (fieldLabel f ++ ":")]
    let value := dataGet data f.name (.pstr "")
    let valueOps : List DrawOp :=
      if pyTruthy value then
        let v1 := if f.type = "date" then pyFormatDate (pyStr value) else pyStr value
        let text := pyTruncate v1 (pyInt (f.width / (f.fontSize * (3/5))))
        [.setFont fontName f.fontSize, .setFillColorRGB 0 0 0,
         .drawString (x + 5) (y + f.height / 2 - f.fontSize / 3) text]
      else []
    (boxOps ++ valueOps ++ resetOps, none)

/-- A page of a PDF document: its content streams (each a sequence of
drawing operations) and its `/Annots` annotations (form-field
widgets), identified abstractly by name. -/
structure PdfPage where
  contents : List (List DrawOp)
  annots : List String
  deriving DecidableEq

/-- A PDF document: pages, presence of the document-level `/AcroForm`
entry in the catalog, and the form-field values written by the native
form filler. -/
structure PdfDoc where
  pages : List PdfPage
  acroForm : Bool
  formValues : List (String × String)
  deriving DecidableEq

/-- Call-scoped environment of one render: the timestamp the
standalone header embeds, whether pikepdf is importable
(`pikepdf_works`, lines 260-267 and 334), and knobs for the exogenous
library failures the source catches: a raised write error in the
native form filler, a raised pikepdf merge error, a raised first
`merge_page` in the PyPDF2 merge, and a failed pikepdf flatten pass. -/
structure Env where
  now : String
  pikepdfWorks : Bool
  fillWriteFails : Bool
  pikepdfMergeFails : Bool
  pypdf2FirstMergeFails : Bool
  flattenFails : Bool

/-- The page operations of `_generate_simple_pdf` (`pdf_service.py`
lines 69-102): fixed header (template name, generation timestamp)
then every field in template order, in standalone mode. -/
def simplePageOps (env : Env) (t : Template) (data : List (String × PyVal)) :
    List DrawOp :=
  [.setFont "Helvetica-Bold" 10,
   .drawString 40 (t.pageHeight - 30) ("Template: " ++ t.name),
   .setFont "Helvetica" 8,
   .drawString 40 (t.pageHeight - 45) ("Generated: " ++ env.now)] ++
  t.fields.flatMap (fun f => (drawField f data t.pageHeight false).1)

/-- `_generate_simple_pdf`: a fresh single-page document with no
annotations and no interactive form. -/
def generateSimplePdf (env : Env) (t : Template) (data : List (String × PyVal)) :
    PdfDoc :=
  { pages := [{ contents := [simplePageOps env t data], annots := [] }],
    acroForm := false, formValues := [] }

/-- The transparent overlay page built by `_generate_overlay_merge`
(`pdf_service.py` lines 202-231): every field in overlay mode, no
header. -/
def overlayPageOps (t : Template) (data : List (String × PyVal)) : List DrawOp :=
  t.fields.flatMap (fun f => (drawField f data t.pageHeight true).1)

/-- The overlay document: a single-page PDF wrapping the overlay
operations. -/
def overlayDoc (t : Template) (data : List (String × PyVal)) : PdfDoc :=
  { pages := [{ contents := [overlayPageOps t data], annots := [] }],
    acroForm := false, formValues := [] }

/-- The form-field dictionary built by `_try_fill_pdf_form_fields`
(`pdf_service.py` lines 162-175): checkboxes map through
`fillerCheckboxState`; other fields contribute their value only when
truthy. -/
def fillFormFields (t : Template) (data : List (String × PyVal)) :
    List (String × String) :=
  t.fields.foldl (fun acc f =>
    if f.type = "checkbox" then
      acc ++ [(f.name, fillerCheckboxState (dataGet data f.name (.pstr "")))]
    else
      let v := dataGet data f.name (.pstr "")
      if pyTruthy v then acc ++ [(f.name, pyStr v)] else acc) []

/-- `_try_fill_pdf_form_fields` (`pdf_service.py` lines 134-196):
not applicable (`None`) when the background has no `/AcroForm`; on a
raised write error the exception is caught and `None` returned;
otherwise every background page is copied unchanged (annotations and
the interactive form are retained — this path never flattens) and the
field values are written. -/
def tryFillPdfFormFields (env : Env) (bg : PdfDoc) (t : Template)
    (data : List (String × PyVal)) : Option PdfDoc :=
  if !bg.acroForm then none
  else if env.fillWriteFails then none
  else some { pages := bg.pages, acroForm := bg.acroForm,
              formValues := fillFormFields t data }

/-- `_merge_with_pikepdf` (`pdf_service.py` lines 348-464): appends
the overlay first page's content streams after the background first
page's streams (absent or single content entries are normalised to
stream lists by the model's representation), then removes `/Annots`
from every page and `/AcroForm` from the catalog, and saves the whole
background document.  A missing first page raises and is caught,
yielding `None`. -/
def mergeWithPikepdf (bg ov : PdfDoc) : Option PdfDoc :=
  match bg.pages, ov.pages with
  | bgPage :: rest, ovPage :: _ =>
    let mergedFirst : PdfPage :=
      { contents := bgPage.contents ++ ovPage.contents, annots := bgPage.annots }
    some { pages := (mergedFirst :: rest).map (fun p => { p with annots := [] }),
           acroForm := false, formValues := bg.formValues }
  | _, _ => none

/-- `_flatten_pdf_with_pikepdf` (`pdf_service.py` lines 466-505):
remove `/Annots` from every page and `/AcroForm` from the catalog. -/
def flattenPdfDoc (d : PdfDoc) : PdfDoc :=
  { pages := d.pages.map (fun p => { p with annots := [] }),
    acroForm := false, formValues := d.formValues }

/-- The PyPDF2 merge of `_generate_overlay_merge` (`pdf_service.py`
lines 288-346): merge the overlay page onto the background first page
(on a raised `merge_page`, the alternate direction is used), write a
fresh single-page document (a fresh `PdfWriter` carries no
`/AcroForm`, but the merged page keeps its annotations), then flatten
with pikepdf only when pikepdf is available and the flatten pass
succeeds.  A missing first page raises out of this function. -/
def pypdf2Merge (env : Env) (bg ov : PdfDoc) : Option PdfDoc :=
  match bg.pages, ov.pages with
  | bgPage :: _, ovPage :: _ =>
    let merged : PdfPage :=
      if env.pypdf2FirstMergeFails then
        { contents := ovPage.contents ++ bgPage.contents, annots := ovPage.annots }
      else
        { contents := bgPage.contents ++ ovPage.contents, annots := bgPage.annots }
    let outDoc : PdfDoc := { pages := [merged], acroForm := false, formValues := [] }
    if env.pikepdfWorks && !env.flattenFails then some (flattenPdfDoc outDoc)
    else some outDoc
  | _, _ => none

/-- `_generate_overlay_merge` (`pdf_service.py` lines 198-346): with
pikepdf available, try the pikepdf merge first and fall through to
the PyPDF2 merge when it fails or returns `None`; without pikepdf,
use the PyPDF2 merge from the start.  `none` models an exception
escaping to the caller's handler. -/
def generateOverlayMerge (env : Env) (t : Template) (data : List (String × PyVal))
    (bg : PdfDoc) : Option PdfDoc :=
  let ov := overlayDoc t data
  if env.pikepdfWorks then
    match (if env.pikepdfMergeFails then none else mergeWithPikepdf bg ov) with
    | some r => some r
    | none => pypdf2Merge env bg ov
  else pypdf2Merge env bg ov

/-- `_generate_pdf_with_overlay` (`pdf_service.py` lines 104-132):
native form fill first; on not-applicable/failure the overlay merge;
on an escaped exception the simple standalone render. -/
def generatePdfWithOverlay (env : Env) (t : Template) (data : List (String × PyVal))
    (bg : PdfDoc) : PdfDoc :=
  match tryFillPdfFormFields env bg t data with
  | some r => r
  | none =>
    match generateOverlayMerge env t data bg with
    | some r => r
    | none => generateSimplePdf env t data

/-- `generate_pdf` (`pdf_service.py` lines 43-67): overlay mode only
when a background path is supplied and exists in the file system
(modelled as `fs : String → Option PdfDoc`); otherwise the simple
standalone render. -/
def generate_pdf (env : Env) (fs : String → Option PdfDoc) (t : Template)
    (data : List (String × PyVal)) (bgPath : Option String) : PdfDoc :=
  match bgPath with
  | some p =>
    match fs p with
    | some bg => generatePdfWithOverlay env t data bg
    | none => generateSimplePdf env t data
  | none => generateSimplePdf env t data

/-! Concrete fixtures used by the closed theorems below. -/

/-- Environment with pikepdf importable and no exogenous failures. -/
def envPike : Env :=
  { now := "2026-10-12 00:00:00", pikepdfWorks := true, fillWriteFails := false,
    pikepdfMergeFails := false, pypdf2FirstMergeFails := false, flattenFails := false }

/-- Environment with pikepdf not importable and no other failures. -/
def envNoPike : Env :=
  { now := "2026-10-12 00:00:00", pikepdfWorks := false, fillWriteFails := false,
    pikepdfMergeFails := false, pypdf2FirstMergeFails := false, flattenFails := false }

/-- A template with no fields. -/
def tEmpty : Template := { name := "T", fields := [] }

/-- A two-page background PDF without an interactive form. -/
def bgTwoPages : PdfDoc :=
  { pages := [{ contents := [[]], annots := [] }, { contents := [[]], annots := [] }],
    acroForm := false, formValues := [] }

/-- A one-page background PDF without an interactive form. -/
def bgOnePage : PdfDoc :=
  { pages := [{ contents := [[]], annots := [] }], acroForm := false, formValues := [] }

/-- A one-page background PDF carrying a form-field widget annotation
but no document-level interactive form. -/
def bgAnnots : PdfDoc :=
  { pages := [{ contents := [[]], annots := ["field1"] }], acroForm := false,
    formValues := [] }

/-- A one-page background with both a widget annotation and an
`/AcroForm` entry. -/
def bgForm : PdfDoc :=
  { pages := [{ contents := [[]], annots := ["field1"] }], acroForm := true,
    formValues := [] }

/-- A one-page overlay document with one empty content stream. -/
def ovPlain : PdfDoc :=
  { pages := [{ contents := [[]], annots := [] }], acroForm := false, formValues := [] }

/-- The document `mergeWithPikepdf bgForm ovPlain` produces. -/
def mergedFormPlain : PdfDoc :=
  { pages := [{ contents := [[], []], annots := [] }], acroForm := false,
    formValues := [] }

/-- A checkbox field fixture. -/
def cbField : Field :=
  { name := "agree", type := "checkbox", x := 10, y := 20, width := 15, height := 15 }

/-- A narrow text field (character capacity 1). -/
def txSmall : Field :=
  { name := "total", type := "text", x := 0, y := 0, width := 12, height := 20 }

/-- A text field of character capacity 10. -/
def txHello : Field :=
  { name := "note", type := "text", x := 0, y := 0, width := 60, height := 20,
    fontSize := 10 }

/-- A label field fixture. -/
def lblField : Field :=
  { name := "caption", type := "label", x := 0, y := 0, width := 10, height := 10 }

/-- A table field fixture (3 rows, 3 columns, no headers). -/
def tblField : Field :=
  { name := "items", type := "table", x := 0, y := 0, width := 300, height := 100 }

/-! Helper lemmas. -/

/-- The positive checkbox tokens and the falsey tokens are disjoint. -/
theorem pos_not_falsey (s : String) (h : s ∈ positiveTokens) : s ∉ falseyTokens := by
  simp only [positiveTokens, List.mem_cons, List.not_mem_nil, or_false] at h
  rcases h with rfl | rfl | rfl | rfl | rfl | rfl <;> decide

/-- The renderer's checkbox decision on a string value reduces to:
non-empty, and stripped-lower-cased form not a falsey token. -/
theorem isCheckedValue_pstr_iff (s : String) :
    isCheckedValue (.pstr s) = true ↔ s ≠ "" ∧ pyLower (pyStrip s) ∉ falseyTokens := by
  unfold isCheckedValue pyTruthy pyStr
  by_cases he : s = ""
  · subst he
    simp only [ne_eq, not_true_eq_false, false_and, iff_false]
    intro h
    rw [if_neg (by decide)] at h
    cases h
  · have hne : s.isEmpty = false := by
      rw [Bool.eq_false_iff]
      simpa [String.isEmpty_iff] using he
    simp only [hne, Bool.not_false, if_true, ne_eq, he, not_false_iff, true_and,
      Bool.or_eq_true, Bool.not_eq_true', ← List.elem_iff]
    constructor
    · rintro (hp | hfa)
      · rw [List.elem_iff] at hp ⊢
        simpa using pos_not_falsey _ hp
      · exact fun hc => absurd hc (by simpa using hfa)
    · intro h
      right
      rw [Bool.eq_false_iff]
      exact fun hc => h (by simpa using hc)

/-- Every filler token is a positive token. -/
theorem filler_sub_positive (s : String) (h : fillerTokens.contains s = true) :
    positiveTokens.contains s = true := by
  rw [List.elem_iff] at h ⊢
  simp only [fillerTokens, positiveTokens, List.mem_cons, List.not_mem_nil, or_false] at h ⊢
  tauto

/-- A value the filler maps to `/Yes` is checked for the renderer. -/
theorem filler_yes_checked (v : PyVal) (h : fillerCheckboxState v = "/Yes") :
    isCheckedValue v = true := by
  unfold fillerCheckboxState at h
  by_cases hb : (pyTruthy v && fillerTokens.contains (pyLower (pyStrip (pyStr v)))) = true
  · obtain ⟨ht, hfi⟩ := Bool.and_eq_true_iff.mp hb
    unfold isCheckedValue
    simp only [ht, if_true, Bool.or_eq_true]
    exact Or.inl (filler_sub_positive _ hfi)
  · rw [if_neg hb] at h
    exact absurd h (by decide)

/-- The native form filler copies the background's pages verbatim. -/
theorem tryFill_pages (env : Env) (bg : PdfDoc) (t : Template)
    (data : List (String × PyVal)) (r : PdfDoc)
    (h : tryFillPdfFormFields env bg t data = some r) : r.pages = bg.pages := by
  unfold tryFillPdfFormFields at h
  split_ifs at h
  cases h
  rfl

/-- The pikepdf merge keeps one output page per background page. -/
theorem mergeWithPikepdf_pages_len (bg ov r : PdfDoc)
    (h : mergeWithPikepdf bg ov = some r) : r.pages.length = bg.pages.length := by
  unfold mergeWithPikepdf at h
  rcases hbg : bg.pages with _ | ⟨p, rest⟩ <;> rw [hbg] at h
  · cases h
  · rcases hov : ov.pages with _ | ⟨q, qrest⟩ <;> rw [hov] at h
    · cases h
    · cases h
      simp [hbg]

/-- The PyPDF2 merge always outputs a one-page document. -/
theorem pypdf2Merge_pages_len (env : Env) (bg ov r : PdfDoc)
    (h : pypdf2Merge env bg ov = some r) : r.pages.length = 1 := by
  unfold pypdf2Merge at h
  rcases hbg : bg.pages with _ | ⟨p, rest⟩ <;> rw [hbg] at h
  · cases h
  · rcases hov : ov.pages with _ | ⟨q, qrest⟩ <;> rw [hov] at h
    · cases h
    · split_ifs at h <;> cases h <;> rfl

/-- Any successful overlay merge outputs either one page (PyPDF2
back-end) or one page per background page (pikepdf back-end). -/
theorem overlayMerge_pages_len (env : Env) (t : Template)
    (data : List (String × PyVal)) (bg : PdfDoc) (r : PdfDoc)
    (h : generateOverlayMerge env t data bg = some r) :
    r.pages.length = 1 ∨ r.pages.length = bg.pages.length := by
  unfold generateOverlayMerge at h
  by_cases hw : env.pikepdfWorks = true
  · rw [if_pos hw] at h
    rcases hm : (if env.pikepdfMergeFails then none
        else mergeWithPikepdf bg (overlayDoc t data)) with _ | r2 <;> rw [hm] at h
    · exact Or.inl (pypdf2Merge_pages_len env bg _ r h)
    · cases h
      split_ifs at hm
      exact Or.inr (mergeWithPikepdf_pages_len bg _ _ hm)
  · rw [if_neg hw] at h
    exact Or.inl (pypdf2Merge_pages_len env bg _ r h)

/-- Truncation is the identity within the character capacity. -/
theorem pyTruncate_of_le (t : String) (cap : ℤ) (h : (t.length : ℤ) ≤ cap) :
    pyTruncate t cap = t := by
  unfold pyTruncate
  rw [if_neg (not_lt.mpr h)]

/-- Truncation beyond capacity slice-and-suffixes with an ellipsis. -/
theorem pyTruncate_of_gt (t : String) (cap : ℤ) (h : (t.length : ℤ) > cap) :
    pyTruncate t cap = pySliceTo t (cap - 3) ++ "..." := by
  unfold pyTruncate
  rw [if_pos h]

/-- With capacity at least 3, truncated output has exactly the
capacity's length. -/
theorem length_pyTruncate_of_gt (t : String) (cap : ℤ) (h : (t.length : ℤ) > cap)
    (h3 : 3 ≤ cap) : ((pyTruncate t cap).length : ℤ) = cap := by
  rw [pyTruncate_of_gt t cap h]
  unfold pySliceTo
  rw [if_pos (by omega : (0:ℤ) ≤ cap - 3)]
  have hlen : t.length = t.data.length := rfl
  have hsum : ((⟨t.data.take (cap - 3).toNat⟩ : String) ++ "...").length
      = (t.data.take (cap - 3).toNat).length + 3 := by
    show ((t.data.take (cap - 3).toNat) ++ "...".data).length = _
    simp
  rw [hsum, List.length_take]
  have : (cap - 3).toNat ≤ t.data.length := by omega
  omega

/-- The character capacity of a width-12, font-size-12 field is 1. -/
theorem pyInt_capacity_small : pyInt ((12 : ℚ) / (12 * (3/5))) = 1 := by
  have hq : ((12 : ℚ) / (12 * (3/5))) = 5/3 := by norm_num
  rw [pyInt, if_pos (by rw [hq]; norm_num)]
  rw [hq, Int.floor_eq_iff]
  constructor <;> norm_num

/-- Every cell a table row contributes lies within the first
`columns` columns. -/
theorem tableRowCells_col_lt (columns : Nat) (headers : List String) (rowData : PyVal)
    (c : Nat × String) (hc : c ∈ tableRowCells columns headers rowData) :
    c.1 < columns := by
  unfold tableRowCells at hc
  rcases rowData with s | cells | kvs
  · cases hc
  · simp only [List.mem_map, List.mem_range] at hc
    obtain ⟨i, hi, rfl⟩ := hc
    exact lt_of_lt_of_le hi (min_le_left _ _)
  · simp only [List.mem_map, List.mem_range] at hc
    obtain ⟨i, hi, rfl⟩ := hc
    exact lt_of_lt_of_le hi (min_le_left _ _)

/-! Claim theorems. -/

/-- C1 (counterexample): `generate_pdf` is claimed to always return a
single-page document regardless of the background's page count; on a
two-page background without an interactive form, with pikepdf
available, the pikepdf merge path returns both background pages, so
the output has two pages, not one. -/
theorem generatePdf_twoPage_bg_counterexample :
    (generate_pdf envPike (fun _ => some bgTwoPages) tEmpty [] (some "bg.pdf")).pages.length
      = 2 := by
  decide

/-- C1 (amended): the output of `generate_pdf` has exactly one page
whenever every background document the file system can supply has
exactly one page; the native-fill and pikepdf-merge strategies return
one page per background page, while the PyPDF2 merge and the
standalone render always return a single page. -/
theorem generatePdf_onePage_of_onePage_bg (env : Env) (fs : String → Option PdfDoc)
    (t : Template) (data : List (String × PyVal)) (bgPath : Option String)
    (h : ∀ p doc, fs p = some doc → doc.pages.length = 1) :
    (generate_pdf env fs t data bgPath).pages.length = 1 := by
  rcases bgPath with _ | p
  · rfl
  · rcases hfs : fs p with _ | bg
    · simp only [generate_pdf, hfs]
      rfl
    · have hbg := h p bg hfs
      simp only [generate_pdf, hfs, generatePdfWithOverlay]
      rcases hfill : tryFillPdfFormFields env bg t data with _ | r
      · simp only []
        rcases hmerge : generateOverlayMerge env t data bg with _ | r
        · rfl
        · rcases overlayMerge_pages_len env t data bg r hmerge with h1 | h1
          · exact h1
          · rw [h1, hbg]
      · rw [tryFill_pages env bg t data r hfill, hbg]

/-- C1 (witness): the amended claim at a concrete one-page
background. -/
theorem generatePdf_onePage_of_onePage_bg_witness :
    (generate_pdf envPike (fun _ => some bgOnePage) tEmpty [] (some "bg.pdf")).pages.length
      = 1 :=
  generatePdf_onePage_of_onePage_bg envPike (fun _ => some bgOnePage) tEmpty []
    (some "bg.pdf") (fun _ doc hd => by cases hd; rfl)

/-- C2: when the background path is absent, or names a file the file
system does not have, `generate_pdf` returns exactly the standalone
compositor's output on the same template and data — the dispatch at
lines 61-67 jumps straight to `_generate_simple_pdf` and no fill or
merge step is reached. -/
theorem generatePdf_missing_bg_standalone (env : Env) (fs : String → Option PdfDoc)
    (t : Template) (data : List (String × PyVal)) (bgPath : Option String)
    (h : bgPath = none ∨ ∃ p, bgPath = some p ∧ fs p = none) :
    generate_pdf env fs t data bgPath = generateSimplePdf env t data := by
  rcases h with rfl | ⟨p, rfl, hp⟩
  · rfl
  · simp [generate_pdf, hp]

/-- C2 (witness): the claim at a concrete missing path. -/
theorem generatePdf_missing_bg_standalone_witness :
    generate_pdf envPike (fun _ => none) tEmpty [] (some "missing.pdf")
      = generateSimplePdf envPike tEmpty [] :=
  generatePdf_missing_bg_standalone envPike (fun _ => none) tEmpty []
    (some "missing.pdf") (Or.inr ⟨"missing.pdf", rfl, rfl⟩)

/-- C3 (counterexample): flattening is claimed unconditional on every
successful overlay-merge result; with pikepdf unavailable the PyPDF2
merge result is returned unflattened, and on a background page
carrying a widget annotation (and no `/AcroForm`, so the native fill
is not applicable) the returned document still carries that
annotation. -/
theorem pypdf2_unflattened_counterexample :
    ((generate_pdf envNoPike (fun _ => some bgAnnots) tEmpty [] (some "bg.pdf")).pages.all
      (fun p => p.annots.isEmpty)) = false := by
  decide

/-- C3 (amended): the pikepdf merge back-end flattens every document
it returns (no `/AcroForm`, no page annotations); the PyPDF2 back-end
yields a flattened document only when pikepdf is available and the
post-hoc flatten pass succeeds — otherwise its merged result keeps
the background page's annotations. -/
theorem merge_flatten_conditions :
    (∀ bg ov r : PdfDoc, mergeWithPikepdf bg ov = some r →
       r.acroForm = false ∧ ∀ p ∈ r.pages, p.annots = []) ∧
    (∀ (env : Env) (bg ov r : PdfDoc), env.pikepdfWorks = true → env.flattenFails = false →
       pypdf2Merge env bg ov = some r →
       r.acroForm = false ∧ ∀ p ∈ r.pages, p.annots = []) := by
  constructor
  · intro bg ov r h
    unfold mergeWithPikepdf at h
    rcases hbg : bg.pages with _ | ⟨p, rest⟩ <;> rw [hbg] at h
    · cases h
    · rcases hov : ov.pages with _ | ⟨q, qrest⟩ <;> rw [hov] at h
      · cases h
      · cases h
        refine ⟨rfl, ?_⟩
        intro pg hpg
        simp only [List.mem_map] at hpg
        obtain ⟨pg0, _, rfl⟩ := hpg
        rfl
  · intro env bg ov r hw hf h
    unfold pypdf2Merge at h
    rcases hbg : bg.pages with _ | ⟨p, rest⟩ <;> rw [hbg] at h
    · cases h
    · rcases hov : ov.pages with _ | ⟨q, qrest⟩ <;> rw [hov] at h
      · cases h
      · rw [hw, hf] at h
        simp only [Bool.not_false, Bool.and_true, if_true] at h
        cases h
        refine ⟨rfl, ?_⟩
        intro pg hpg
        simp only [flattenPdfDoc, List.mem_map] at hpg
        obtain ⟨pg0, _, rfl⟩ := hpg
        rfl

/-- C3 (witness): the pikepdf branch of the amended claim at a
concrete background and overlay. -/
theorem merge_flatten_conditions_witness :
    mergedFormPlain.acroForm = false ∧
    mergedFormPlain.pages.all (fun p => p.annots.isEmpty) = true := by
  have h := merge_flatten_conditions.1 bgForm ovPlain mergedFormPlain (by rfl)
  exact ⟨h.1, List.all_eq_true.mpr (fun x hx => by rw [h.2 x hx]; rfl)⟩

/-- C4: for a checkbox field whose data value is the string `s`, the
renderer signals a drawn checkmark (and emits its two line strokes)
exactly when `s` is non-empty and its stripped, lower-cased form is
not one of the falsey tokens `false, no, 0, unchecked, off, ""` —
so all positive tokens and every other non-empty value check the
box. -/
theorem checkbox_truthiness_rule (f : Field) (data : List (String × PyVal)) (ph : ℚ)
    (mode : Bool) (s : String) (hf : f.type = "checkbox")
    (hv : data.lookup f.name = some (.pstr s)) :
    ((drawField f data ph mode).2 = some "checkbox_drawn" ↔
       (s ≠ "" ∧ pyLower (pyStrip s) ∉ falseyTokens)) ∧
    (drawField f data ph mode).1.countP isLineOp =
      (if s ≠ "" ∧ pyLower (pyStrip s) ∉ falseyTokens then 2 else 0) := by
  have hval : dataGet data f.name (.pstr "") = .pstr s := by simp [dataGet, hv]
  rw [show (drawField f data ph mode) =
    (let x := f.x
     let y := toContentY f.y f.height ph
     let boxOps : List DrawOp :=
       if mode then []
       else [.setStrokeColorRGB (1/5) (2/5) (4/5), .setLineWidth (3/2),
             .rect x y f.width f.height false]
     if isCheckedValue (.pstr s) then
       (boxOps ++
        [.saveState, .setStrokeColorRGB 0 0 0, .setLineWidth 2,
         .line (x + f.width * (1/5)) (y + f.height * (2/5))
           (x + f.width * (2/5)) (y + f.height * (1/5)),
         .line (x + f.width * (2/5)) (y + f.height * (1/5))
           (x + f.width * (4/5)) (y + f.height * (4/5)),
         .restoreState], some "checkbox_drawn")
     else (boxOps, some "checkbox_empty")) from by
       simp only [drawField, hf, hval]
       rfl]
  by_cases hrule : s ≠ "" ∧ pyLower (pyStrip s) ∉ falseyTokens
  · have hchk : isCheckedValue (.pstr s) = true := (isCheckedValue_pstr_iff s).mpr hrule
    simp only [hchk, if_true, if_pos hrule]
    refine ⟨by simp [hrule], ?_⟩
    cases mode <;> simp [List.countP, List.countP.go, isLineOp]
  · have hchk : isCheckedValue (.pstr s) = false := by
      rw [Bool.eq_false_iff]
      exact fun h => hrule ((isCheckedValue_pstr_iff s).mp h)
    simp only [hchk, Bool.false_eq_true, if_false, if_neg hrule]
    refine ⟨by simp [hrule], ?_⟩
    cases mode <;> simp [List.countP, List.countP.go, isLineOp]

/-- C4 (witness): the rule at the value `"x"`, which checks the
box. -/
theorem checkbox_truthiness_rule_witness :
    (drawField cbField [("agree", PyVal.pstr "x")] 792 false).2 = some "checkbox_drawn" :=
  (checkbox_truthiness_rule cbField [("agree", PyVal.pstr "x")] 792 false "x"
    rfl rfl).1.mpr (by decide)

/-- C5 (counterexample): the native filler and the renderer are
claimed to agree on every checkbox value; on the value `"maybe"` the
filler writes `/Off` while the renderer draws a checkmark. -/
theorem filler_renderer_disagree_counterexample :
    fillerCheckboxState (.pstr "maybe") = "/Off" ∧
    (drawField cbField [("agree", PyVal.pstr "maybe")] 792 false).2
      = some "checkbox_drawn" := by
  decide

/-- C5 (amended): agreement holds in one direction only — whenever
the native filler writes `/Yes` (value truthy and stripped-lowered
form among `yes, true, 1, checked, on, x`), the renderer draws the
checkmark for the same value; the renderer additionally checks every
other non-empty non-falsey value for which the filler writes
`/Off`. -/
theorem filler_yes_implies_renderer_checked (f : Field) (data : List (String × PyVal))
    (ph : ℚ) (mode : Bool) (v : PyVal) (hf : f.type = "checkbox")
    (hv : data.lookup f.name = some v)
    (hy : fillerCheckboxState v = "/Yes") :
    (drawField f data ph mode).2 = some "checkbox_drawn" := by
  have hval : dataGet data f.name (.pstr "") = v := by simp [dataGet, hv]
  have hchk := filler_yes_checked v hy
  simp only [drawField, hf, hval]
  simp [hchk]

/-- C5 (witness): the amended claim at the value `"yes"`. -/
theorem filler_yes_implies_renderer_checked_witness :
    (drawField cbField [("agree", PyVal.pstr "yes")] 792 true).2
      = some "checkbox_drawn" :=
  filler_yes_implies_renderer_checked cbField [("agree", PyVal.pstr "yes")] 792 true
    (.pstr "yes") rfl rfl (by decide)

/-- C6 (counterexample): truncated output is claimed to always have
length equal to the computed capacity; in a field of width 12 and
font size 12 the capacity is `int(12 / 7.2) = 1`, and the value
`"abcd"` is drawn as `"ab..."` of length 5 (Python's negative slice
`text[:-2]`), not length 1. -/
theorem truncation_length_counterexample :
    (drawField txSmall [("total", PyVal.pstr "abcd")] 792 true).1.filterMap stringOf
      = ["ab..."] ∧
    pyInt ((12 : ℚ) / (12 * (3/5))) = 1 ∧
    ("ab..." : String).length = 5 := by
  refine ⟨?_, pyInt_capacity_small, by decide⟩
  simp [drawField, txSmall, dataGet, pyTruthy, pyStr, stringOf, resetOps,
    pyInt_capacity_small]
  decide

/-- C6 (amended): for non-table, non-label, non-checkbox fields with
a truthy value, the drawn text is the (date-formatted) value pushed
through `pyTruncate` at capacity `int(width / (fontSize * 0.6))`;
a text within capacity is drawn verbatim, a longer text is truncated
and suffixed with an ellipsis, and the truncated length equals the
capacity whenever the capacity is at least 3. -/
theorem truncation_rule (f : Field) (data : List (String × PyVal)) (ph : ℚ)
    (mode : Bool) (v : PyVal)
    (h1 : f.type ≠ "table") (h2 : f.type ≠ "label") (h3 : f.type ≠ "checkbox")
    (hv : data.lookup f.name = some v) (htr : pyTruthy v = true) :
    ((drawField f data ph mode).1.filterMap stringOf =
       (if mode then [] else [fieldLabel f ++ ":"]) ++
       [pyTruncate (if f.type = "date" then pyFormatDate (pyStr v) else pyStr v)
          (pyInt (f.width / (f.fontSize * (3/5))))]) ∧
    (∀ (t : String) (cap : ℤ), (t.length : ℤ) ≤ cap → pyTruncate t cap = t) ∧
    (∀ (t : String) (cap : ℤ), (t.length : ℤ) > cap →
       ∃ pre, pyTruncate t cap = pre ++ "...") ∧
    (∀ (t : String) (cap : ℤ), (t.length : ℤ) > cap → 3 ≤ cap →
       ((pyTruncate t cap).length : ℤ) = cap) := by
  refine ⟨?_, fun t cap h => pyTruncate_of_le t cap h,
    fun t cap h => ⟨pySliceTo t (cap - 3), pyTruncate_of_gt t cap h⟩,
    fun t cap h h3 => length_pyTruncate_of_gt t cap h h3⟩
  have hval : dataGet data f.name (.pstr "") = v := by simp [dataGet, hv]
  simp only [drawField, if_neg h1, if_neg h2, if_neg h3, hval, htr, if_true]
  cases mode <;> simp [stringOf, resetOps]

/-- C6 (witness): the amended claim at a concrete in-capacity
value. -/
theorem truncation_rule_witness :
    (drawField txHello [("note", PyVal.pstr "hello")] 792 true).1.filterMap stringOf
      = [pyTruncate "hello" (pyInt ((60 : ℚ) / (10 * (3/5))))] := by
  have h := (truncation_rule txHello [("note", PyVal.pstr "hello")] 792 true
    (.pstr "hello") (by decide) (by decide) (by decide) rfl rfl).1
  simpa using h

/-- C7: the renderer's editor-to-content Y conversion is
`pageHeight - editorY - fieldHeight`, and applying the conversion
twice (same field height and page height) recovers the editor
coordinate exactly. -/
theorem toContentY_roundTrip : ∀ editorY fieldHeight pageHeight : ℚ,
    toContentY editorY fieldHeight pageHeight = pageHeight - editorY - fieldHeight ∧
    toContentY (toContentY editorY fieldHeight pageHeight) fieldHeight pageHeight
      = editorY := by
  intro e h H
  refine ⟨rfl, ?_⟩
  unfold toContentY
  ring

/-- C8 (code bug evidence): for a checkbox field rendered in
standalone mode, with a checked value and with an unchecked value,
the renderer emits the box border rectangle but no text at all — in
particular no adjacent label at `x + width + 5`: the label-drawing
statements at `pdf_service.py` lines 604-608 sit after the
unconditional returns of both checkbox branches and are
unreachable. -/
theorem checkbox_label_never_drawn :
    (drawField cbField [("agree", PyVal.pstr "yes")] 792 false).1.filterMap stringOf
      = [] ∧
    (drawField cbField [("agree", PyVal.pstr "no")] 792 false).1.filterMap stringOf
      = [] ∧
    (drawField cbField [("agree", PyVal.pstr "yes")] 792 false).1.countP isRectOp = 1 ∧
    (drawField cbField [("agree", PyVal.pstr "no")] 792 false).1.countP isRectOp = 1 := by
  decide

/-- C9: table rendering is total and permissive — every data cell
drawn lies within the declared columns and within the first
`min(rows, |supplied rows|)` supplied rows, a non-list table value
contributes no data cells (only the grid is rendered), rows of
neither list nor dict shape contribute no cells, and the rendered
table decomposes as grid/header operations, the data-cell section,
and the color reset. -/
theorem drawTable_permissive (f : Field) (data : List (String × PyVal)) (ph : ℚ)
    (mode : Bool) :
    (∀ c ∈ tableDataCells f.tableRows f.tableColumns f.tableHeaders
        (dataGet data f.name (.plist [])),
       c.2.1 < f.tableColumns ∧
       ∀ rd, dataGet data f.name (.plist []) = PyVal.plist rd →
         c.1 < min f.tableRows rd.length) ∧
    (∀ s, tableDataCells f.tableRows f.tableColumns f.tableHeaders (PyVal.pstr s) = []) ∧
    (∀ kvs, tableDataCells f.tableRows f.tableColumns f.tableHeaders (PyVal.pdict kvs)
       = []) ∧
    (∀ rd i s, rd.getD i (.pstr "") = PyVal.pstr s →
       ∀ c ∈ tableDataCells f.tableRows f.tableColumns f.tableHeaders (PyVal.plist rd),
         c.1 ≠ i) ∧
    (∃ preOps postOps, drawTable f data ph mode =
       preOps ++ tableDataSection f ph (dataGet data f.name (.plist [])) ++ postOps) := by
  refine ⟨?_, fun s => rfl, fun kvs => rfl, ?_, ?_⟩
  · intro c hc
    rcases htd : dataGet data f.name (.plist []) with s | rowsData | kvs <;> rw [htd] at hc
    · cases hc
    · unfold tableDataCells at hc
      simp only [List.mem_flatMap, List.mem_map, List.mem_range] at hc
      obtain ⟨rowIdx, hrow, c0, hc0, rfl⟩ := hc
      refine ⟨tableRowCells_col_lt _ _ _ c0 hc0, ?_⟩
      intro rd hrd
      injection hrd with hrd
      subst hrd
      exact hrow
    · cases hc
  · intro rd i s hgetd c hc
    unfold tableDataCells at hc
    simp only [List.mem_flatMap, List.mem_map, List.mem_range] at hc
    obtain ⟨rowIdx, hrow, c0, hc0, rfl⟩ := hc
    intro hne
    simp only at hne
    subst hne
    rw [hgetd] at hc0
    cases hc0
  · refine ⟨tableGridOps f.x (toContentY f.y f.height ph) (f.cellWidth * f.tableColumns)
      (f.cellHeight * (f.tableRows + (if !f.tableHeaders.isEmpty then 1 else 0) : ℕ))
      f.cellWidth f.cellHeight (f.tableRows + (if !f.tableHeaders.isEmpty then 1 else 0))
      f.tableColumns (!f.tableHeaders.isEmpty) ++
      (if !f.tableHeaders.isEmpty then
        tableHeaderOps f.x (toContentY f.y f.height ph) (f.cellWidth * f.tableColumns)
          (f.cellHeight * (f.tableRows + (if !f.tableHeaders.isEmpty then 1 else 0) : ℕ))
          f.cellWidth f.cellHeight f.tableColumns f.tableHeaders
       else []) ++ [DrawOp.setFont "Helvetica" 9], resetOps, ?_⟩
    simp only [drawTable]

/-- C9 (witness): a string-valued table renders no data cells. -/
theorem drawTable_permissive_witness :
    tableDataCells 3 3 [] (PyVal.pstr "oops") = [] :=
  (drawTable_permissive tblField [("items", PyVal.pstr "oops")] 792 false).2.1 "oops"

/-- C10: the table renderer ignores its overlay-mode flag — for every
table field and data the rendered operations in overlay mode equal
those in standalone mode — while `_draw_field` does depend on the
flag (a label field renders nothing in overlay mode but emits
operations in standalone mode). -/
theorem drawTable_mode_independent :
    (∀ (f : Field) (data : List (String × PyVal)) (ph : ℚ),
       drawTable f data ph true = drawTable f data ph false) ∧
    (∃ (f : Field) (data : List (String × PyVal)) (ph : ℚ),
       drawField f data ph true ≠ drawField f data ph false) := by
  refine ⟨fun f data ph => rfl, ⟨lblField, [], 792, ?_⟩⟩
  decide

end PdfService
